import Mathlib

/-!
Verification of the PrepAI interview client.

Shallow embedding of the transcript store, the session lifecycle
controller and completion detection from js/pages/interview.js, and of
the score presentation logic from js/pages/feedback.js together with the
legacy feedback module. Remote responses are modelled as already parsed
records whose optional JSON fields become Option values; JavaScript
truthiness of a string field (undefined, null and the empty string are
falsy) is made explicit by strTruthy, and of a boolean field by
boolTruthy.
-/

namespace PrepAI

/-- Truthiness of an optional JSON string field: absent and the empty
string are falsy, every other string is truthy. -/
def strTruthy : Option String → Bool
  | none => false
  | some s => !(s == "")

/-- Truthiness of an optional JSON boolean field: absent is falsy. -/
def boolTruthy : Option Bool → Bool
  | none => false
  | some b => b

/-- One transcript entry as pushed by displayAIMessage in
js/pages/interview.js: the question text, the answer (null while the
question is unanswered) and an ISO timestamp string. -/
structure TranscriptEntry where
  question : String
  answer : Option String
  timestamp : String
deriving Repr, DecidableEq

/-- displayAIMessage (js/pages/interview.js lines 384 to 404), transcript
effect only: unconditionally pushes a new entry with answer null onto the
end of the transcript. The timestamp argument stands for the value of new
Date().toISOString() at the call. -/
def displayAIMessage (message ts : String) (transcript : List TranscriptEntry) :
    List TranscriptEntry :=
  transcript ++ [{ question := message, answer := none, timestamp := ts }]

/-- displayUserMessage (js/pages/interview.js lines 407 to 425),
transcript effect only: when the transcript is nonempty it assigns the
message to the answer field of the last entry, whatever that field held
before; on an empty transcript it does nothing. -/
def displayUserMessage (message : String) : List TranscriptEntry → List TranscriptEntry
  | [] => []
  | [e] => [{ e with answer := some message }]
  | e :: f :: rest => e :: displayUserMessage message (f :: rest)

/-- Decidable check that a transcript holds no two consecutive entries
whose answer is null. -/
def noConsecNull : List TranscriptEntry → Bool
  | a :: b :: rest => !(a.answer.isNone && b.answer.isNone) && noConsecNull (b :: rest)
  | _ => true

/-- Decidable check that the last entry of the transcript is answered
(vacuously true on the empty transcript). -/
def lastAnswered : List TranscriptEntry → Bool
  | [] => true
  | [e] => e.answer.isSome
  | _ :: f :: rest => lastAnswered (f :: rest)

theorem noConsecNull_append :
    ∀ (t : List TranscriptEntry) (msg ts : String),
      noConsecNull t = true → lastAnswered t = true →
      noConsecNull (displayAIMessage msg ts t) = true
  | [], msg, ts, _, _ => by simp [displayAIMessage, noConsecNull]
  | [e], msg, ts, h1, h2 => by
      simp only [displayAIMessage, List.cons_append, List.nil_append]
      simp only [lastAnswered] at h2
      simpa [noConsecNull] using h2
  | e :: f :: rest, msg, ts, h1, h2 => by
      have hrec := noConsecNull_append (f :: rest) msg ts
      simp only [noConsecNull, Bool.and_eq_true] at h1
      simp only [lastAnswered] at h2
      simp only [displayAIMessage, List.cons_append] at hrec ⊢
      simp only [noConsecNull, Bool.and_eq_true]
      exact ⟨h1.1, hrec h1.2 h2⟩

theorem noConsecNull_record :
    ∀ (m : String) (t : List TranscriptEntry),
      noConsecNull t = true → noConsecNull (displayUserMessage m t) = true
  | m, [], h => h
  | m, [e], h => by simp [displayUserMessage, noConsecNull]
  | m, [e, f], _ => by simp [displayUserMessage, noConsecNull]
  | m, e :: f :: g :: rest, h => by
      simp only [noConsecNull, Bool.and_eq_true] at h
      obtain ⟨h1, h2, h3⟩ := h
      have hrec := noConsecNull_record m (f :: g :: rest)
        (by simp only [noConsecNull, Bool.and_eq_true]; exact ⟨h2, h3⟩)
      simp only [displayUserMessage] at hrec ⊢
      simp only [noConsecNull, Bool.and_eq_true] at hrec ⊢
      exact ⟨h1, hrec⟩

/-- C1 counterexample: two consecutive appendQuestion operations on the
empty transcript succeed (the result has length 2, so the second call
appended rather than failing) and leave two consecutive entries with
answer null, violating the claimed invariant. -/
theorem two_appends_violate_invariant :
    noConsecNull (displayAIMessage "Second question" "t2"
      (displayAIMessage "First question" "t1" [])) = false ∧
    (displayAIMessage "Second question" "t2"
      (displayAIMessage "First question" "t1" [])).length = 2 := by
  constructor <;> rfl

/-- C1 amended: appendQuestion (displayAIMessage) never fails; it appends
unconditionally, so the no-two-consecutive-nulls invariant is preserved
by appendQuestion exactly under the hypothesis that the last entry is
answered, while recordAnswer (displayUserMessage) preserves the invariant
unconditionally. -/
theorem transcript_invariant_preservation (msg ts m : String)
    (t : List TranscriptEntry) (h : noConsecNull t = true) :
    (lastAnswered t = true → noConsecNull (displayAIMessage msg ts t) = true) ∧
    noConsecNull (displayUserMessage m t) = true :=
  ⟨fun h2 => noConsecNull_append t msg ts h h2, noConsecNull_record m t h⟩

/-- C1 amended witness: the preservation theorem evaluated on the
one-entry answered transcript. -/
theorem transcript_invariant_preservation_witness :
    noConsecNull (displayAIMessage "Q2" "t2"
      [{ question := "Q1", answer := some "A1", timestamp := "t1" }]) = true ∧
    noConsecNull (displayUserMessage "A2"
      [{ question := "Q1", answer := some "A1", timestamp := "t1" }]) = true :=
  ⟨(transcript_invariant_preservation "Q2" "t2" "A2"
      [{ question := "Q1", answer := some "A1", timestamp := "t1" }]
      (by decide)).1 (by decide),
   (transcript_invariant_preservation "Q2" "t2" "A2"
      [{ question := "Q1", answer := some "A1", timestamp := "t1" }]
      (by decide)).2⟩

/-- Interview configuration as validated by isValidConfiguration
(js/pages/interview.js lines 61 to 67): role, seniority and a nonempty
skills list. -/
structure InterviewConfig where
  role : String
  seniority : String
  skills : List String
deriving Repr, DecidableEq

/-- The skill name used in messages: interviewConfig.skills[0] cut at the
first occurrence of a space followed by an opening parenthesis, modelling
the JavaScript expression skills[0].split(" (")[0]. -/
def firstSkillName (cfg : InterviewConfig) : String :=
  (((cfg.skills.headD "").splitOn " (").headD "")

/-- The fallback opening question synthesized by startInterview
(js/pages/interview.js line 224) when the response has a session id but
no opening statement. -/
def fallbackQuestion (cfg : InterviewConfig) : String :=
  "Let\x27s start with your first question. Can you tell me about your experience with "
    ++ firstSkillName cfg ++ "?"

/-- Parsed body of a successful start-interview response
(js/pages/interview.js line 274): both fields may be absent. -/
structure StartResponse where
  session_id : Option String
  opening_statement : Option String
deriving Repr, DecidableEq

/-- Response validation in startOrchestratorInterview
(js/pages/interview.js lines 280 to 290): a parsed response whose
session_id is absent (or empty, hence falsy) makes the call throw before
returning; otherwise the data is returned unchanged. -/
def startOrchestratorInterview (resp : StartResponse) :
    Except String StartResponse :=
  if strTruthy resp.session_id then .ok resp
  else .error "Server response missing session_id field"

/-- Outcome of starting the interview: either a stored session id with
the updated transcript, or the error path (displayErrorMessage touches
only the DOM, so the transcript is carried unchanged). -/
inductive StartResult where
  | ok (sessionId : String) (transcript : List TranscriptEntry) : StartResult
  | failure (message : String) (transcript : List TranscriptEntry) : StartResult
deriving Repr, DecidableEq

/-- startInterview (js/pages/interview.js lines 193 to 245) composed with
startOrchestratorInterview, transcript and session effects only: a
missing session_id surfaces the thrown error and leaves the transcript
untouched; with a session id, the opening statement is displayed when
truthy, and otherwise the client-side fallback question is displayed. -/
def startInterview (cfg : InterviewConfig) (resp : StartResponse)
    (t : List TranscriptEntry) (ts : String) : StartResult :=
  match startOrchestratorInterview resp with
  | .error e => .failure e t
  | .ok data =>
    match data.session_id with
    | none => .failure "Failed to start interview - no session ID received" t
    | some sid =>
      match data.opening_statement with
      | some q =>
        if q == "" then .ok sid (displayAIMessage (fallbackQuestion cfg) ts t)
        else .ok sid (displayAIMessage q ts t)
      | none => .ok sid (displayAIMessage (fallbackQuestion cfg) ts t)

/-- C2: a start response without a truthy session_id makes the start flow
fail with the protocol error and leave the transcript unchanged, and
whenever the service does provide an opening statement the entry appended
to the transcript is exactly that statement, never a synthesized one. -/
theorem start_protocol_error_on_missing_session (cfg : InterviewConfig)
    (resp : StartResponse) (t : List TranscriptEntry) (ts : String) :
    (strTruthy resp.session_id = false →
      startInterview cfg resp t ts =
        .failure "Server response missing session_id field" t) ∧
    (∀ sid q, resp.session_id = some sid → sid ≠ "" →
      resp.opening_statement = some q → q ≠ "" →
      startInterview cfg resp t ts = .ok sid (displayAIMessage q ts t)) := by
  constructor
  · intro h
    simp [startInterview, startOrchestratorInterview, h]
  · intro sid q hsid hne hq hqne
    simp [startInterview, startOrchestratorInterview, strTruthy, hsid, hq, hne, hqne]

/-- Example configuration used by concrete witnesses. -/
def sampleConfig : InterviewConfig :=
  { role := "Product Manager", seniority := "Senior", skills := ["Product Sense (example)"] }

/-- C2 witness: the start flow evaluated on a response with no session id
(failure, transcript untouched) and on the documented successful response
with session id abc123 and a provided opening statement. -/
theorem start_protocol_error_on_missing_session_witness :
    startInterview sampleConfig { session_id := none, opening_statement := none } [] "t0" =
      .failure "Server response missing session_id field" [] ∧
    startInterview sampleConfig
      { session_id := some "abc123", opening_statement := some "Tell me about a product you admire." }
      [] "t0" =
      .ok "abc123" (displayAIMessage "Tell me about a product you admire." "t0" []) :=
  ⟨(start_protocol_error_on_missing_session sampleConfig _ [] "t0").1 (by decide),
   (start_protocol_error_on_missing_session sampleConfig _ [] "t0").2
     "abc123" "Tell me about a product you admire." rfl (by decide) rfl (by decide)⟩

/-- Parsed body of a successful submit-answer response
(js/pages/interview.js line 348): every field may be absent. -/
structure SubmitResponse where
  success : Option Bool
  interview_completed : Option Bool
  next_question : Option String
deriving Repr, DecidableEq

/-- The three ways submitAnswer (js/pages/interview.js lines 352 to 380)
classifies a response: the explicit completion branch, the continue
branch, and the fallback branch that also completes the interview. -/
inductive CompletionDecision where
  | completed
  | continueInterview
  | ambiguousCompleted
deriving Repr, DecidableEq

/-- Branch selection of submitAnswer (js/pages/interview.js lines 352,
362, 376): a truthy interview_completed wins first; otherwise the
interview continues only when success is truthy AND next_question is
truthy; every remaining response falls to the completion fallback. -/
def completionDetector (r : SubmitResponse) : CompletionDecision :=
  if boolTruthy r.interview_completed then .completed
  else if boolTruthy r.success && strTruthy r.next_question then .continueInterview
  else .ambiguousCompleted

/-- Client state read and written by handleSendMessage: the session id,
the transcript, and the isWaitingForAI flag (set by disableInput, cleared
by enableInput; true exactly when the controller is not awaiting a user
answer). -/
structure TurnState where
  sessionId : Option String
  transcript : List TranscriptEntry
  isWaitingForAI : Bool
deriving Repr, DecidableEq

/-- Transcript and input-flag effect of submitAnswer on a parsed
response (js/pages/interview.js lines 352 to 380): the completed branch
displays data.next_question (undefined renders as the string undefined)
and disables input via handleInterviewCompletion; the continue branch
displays the next question and re-enables input; the fallback branch only
runs handleInterviewCompletion, which disables input. -/
def submitAnswerEffect (r : SubmitResponse) (t : List TranscriptEntry)
    (ts : String) : List TranscriptEntry × Bool :=
  match completionDetector r with
  | .completed => (displayAIMessage (r.next_question.getD "undefined") ts t, true)
  | .continueInterview => (displayAIMessage (r.next_question.getD "undefined") ts t, false)
  | .ambiguousCompleted => (t, true)

/-- Model of the JavaScript expression chatInput.value.trim(): remove
leading and trailing whitespace characters. Written over the character
list so that it evaluates by kernel reduction on concrete inputs. -/
def jsTrim (s : String) : String :=
  String.mk (((s.data.dropWhile Char.isWhitespace).reverse.dropWhile
    Char.isWhitespace).reverse)

/-- handleSendMessage (js/pages/interview.js lines 294 to 324) feeding
submitAnswer: the raw input is trimmed first, and if the trimmed message
is empty or isWaitingForAI is set, nothing at all happens. Otherwise the
answer is recorded on the transcript, and with no session id submitAnswer
throws before any network call (the catch re-enables input; the
transcript keeps the recorded answer). With a session the request is sent
and the parsed response r is applied. The second component is the answer
field of the submit-answer request body, none when no request is made. -/
def handleSendMessage (input : String) (r : SubmitResponse) (st : TurnState)
    (ts : String) : TurnState × Option String :=
  let message := jsTrim input
  if message == "" || st.isWaitingForAI then (st, none)
  else
    let t1 := displayUserMessage message st.transcript
    match st.sessionId with
    | none => ({ st with transcript := t1, isWaitingForAI := false }, none)
    | some _ =>
      let e := submitAnswerEffect r t1 ts
      ({ st with transcript := e.1, isWaitingForAI := e.2 }, some message)

/-- C3 counterexample: the response carrying only nextQuestion equal to
the string Next question, with no success field, is classified by the
code as the completion fallback, not as Continue. -/
theorem next_question_without_success_not_continue :
    completionDetector
      { success := none, interview_completed := none, next_question := some "Next question" } =
      .ambiguousCompleted ∧
    completionDetector
      { success := none, interview_completed := none, next_question := some "Next question" } ≠
      .continueInterview := by
  constructor
  · rfl
  · decide

/-- C3 amended: when the response carries success true, a nonempty next
question, and no truthy completion flag, the detector returns Continue
and the turn records the answer on the last entry, appends a new entry
with answer null for the next question, re-enables input (phase returns
to AwaitingAnswer) and sends exactly one submit-answer request. -/
theorem continue_turn_effect (input ts q sid : String) (r : SubmitResponse)
    (st : TurnState) (h0 : st.sessionId = some sid)
    (h1 : st.isWaitingForAI = false) (h2 : jsTrim input ≠ "")
    (h3 : boolTruthy r.interview_completed = false)
    (h4 : r.success = some true) (h5 : r.next_question = some q) (h6 : q ≠ "") :
    completionDetector r = .continueInterview ∧
    handleSendMessage input r st ts =
      ({ st with
          transcript := displayAIMessage q ts (displayUserMessage (jsTrim input) st.transcript),
          isWaitingForAI := false },
        some (jsTrim input)) := by
  have hdet : completionDetector r = .continueInterview := by
    unfold completionDetector
    rw [h3, h4, h5]
    simp [boolTruthy, strTruthy, h6]
  refine ⟨hdet, ?_⟩
  simp [handleSendMessage, h0, h1, h2, submitAnswerEffect, hdet, h5]

/-- C3 amended witness: a concrete continue turn with a pending question,
answer text, and the response success true with next question. -/
theorem continue_turn_effect_witness :
    handleSendMessage "I led a project"
      { success := some true, interview_completed := none, next_question := some "Next question" }
      { sessionId := some "abc123",
        transcript := [{ question := "Q1", answer := none, timestamp := "t1" }],
        isWaitingForAI := false } "t2" =
      ({ sessionId := some "abc123",
         transcript :=
           displayAIMessage "Next question" "t2"
             (displayUserMessage "I led a project"
               [{ question := "Q1", answer := none, timestamp := "t1" }]),
         isWaitingForAI := false },
        some "I led a project") := by
  have ht : jsTrim "I led a project" = "I led a project" := by decide
  have h := continue_turn_effect "I led a project" "t2" "Next question" "abc123"
    { success := some true, interview_completed := none, next_question := some "Next question" }
    { sessionId := some "abc123",
      transcript := [{ question := "Q1", answer := none, timestamp := "t1" }],
      isWaitingForAI := false }
    rfl rfl (by decide) rfl rfl rfl (by decide)
  rw [h.2, ht]

/-- C4: a response whose interview_completed field is truthy is always
classified Completed, whatever the next_question and success fields hold. -/
theorem completion_flag_wins (r : SubmitResponse)
    (h : boolTruthy r.interview_completed = true) :
    completionDetector r = .completed := by
  simp [completionDetector, h]

/-- C4 witness: interviewCompleted true together with a next question X
still yields Completed. -/
theorem completion_flag_wins_witness :
    completionDetector
      { success := some true, interview_completed := some true, next_question := some "X" } =
      .completed :=
  completion_flag_wins
    { success := some true, interview_completed := some true, next_question := some "X" } rfl

/-- C5: a response with no truthy completion flag and no truthy next
question is classified AmbiguousCompleted, and such a turn ends with
input disabled (isWaitingForAI true), exactly as on completion. -/
theorem ambiguous_response_completes (r : SubmitResponse)
    (h1 : boolTruthy r.interview_completed = false)
    (h2 : strTruthy r.next_question = false) :
    completionDetector r = .ambiguousCompleted ∧
    ∀ (input ts sid : String) (st : TurnState), st.sessionId = some sid →
      st.isWaitingForAI = false → jsTrim input ≠ "" →
      (handleSendMessage input r st ts).1.isWaitingForAI = true := by
  have hdet : completionDetector r = .ambiguousCompleted := by
    unfold completionDetector
    rw [h1, h2]
    simp
  refine ⟨hdet, ?_⟩
  intro input ts sid st h0 hw hne
  simp [handleSendMessage, h0, hw, hne, submitAnswerEffect, hdet]

/-- C5 witness: the empty response object, with all fields absent, on a
concrete awaiting-answer state. -/
theorem ambiguous_response_completes_witness :
    completionDetector { success := none, interview_completed := none, next_question := none } =
      .ambiguousCompleted ∧
    (handleSendMessage "My answer"
      { success := none, interview_completed := none, next_question := none }
      { sessionId := some "abc123",
        transcript := [{ question := "Q1", answer := none, timestamp := "t1" }],
        isWaitingForAI := false } "t2").1.isWaitingForAI = true :=
  ⟨(ambiguous_response_completes
      { success := none, interview_completed := none, next_question := none } rfl rfl).1,
   (ambiguous_response_completes
      { success := none, interview_completed := none, next_question := none } rfl rfl).2
     "My answer" "t2" "abc123"
     { sessionId := some "abc123",
       transcript := [{ question := "Q1", answer := none, timestamp := "t1" }],
       isWaitingForAI := false }
     rfl rfl (by decide)⟩

/-- C9: with isWaitingForAI set (the phase guard for every phase other
than awaiting an answer), handleSendMessage returns the state unchanged
and no submit-answer request is made, whatever the input and whatever
the response would have been. -/
theorem send_rejected_while_waiting (input : String) (r : SubmitResponse)
    (st : TurnState) (ts : String) (h : st.isWaitingForAI = true) :
    handleSendMessage input r st ts = (st, none) := by
  simp [handleSendMessage, h]

/-- C9 witness: a nonempty input on a waiting state is a complete no-op. -/
theorem send_rejected_while_waiting_witness :
    handleSendMessage "My answer"
      { success := some true, interview_completed := none, next_question := some "Q2" }
      { sessionId := some "abc123",
        transcript := [{ question := "Q1", answer := none, timestamp := "t1" }],
        isWaitingForAI := true } "t2" =
      ({ sessionId := some "abc123",
         transcript := [{ question := "Q1", answer := none, timestamp := "t1" }],
         isWaitingForAI := true }, none) :=
  send_rejected_while_waiting "My answer"
    { success := some true, interview_completed := none, next_question := some "Q2" }
    { sessionId := some "abc123",
      transcript := [{ question := "Q1", answer := none, timestamp := "t1" }],
      isWaitingForAI := true } "t2" rfl

/-- C10: an input that trims to the empty string makes handleSendMessage
a complete no-op, in every state, including awaiting-answer states: the
state is unchanged and no request is made. -/
theorem blank_input_noop (input : String) (r : SubmitResponse)
    (st : TurnState) (ts : String) (h : jsTrim input = "") :
    handleSendMessage input r st ts = (st, none) := by
  simp [handleSendMessage, h]

/-- C10 witness: a whitespace-only input on an awaiting-answer state with
a live session is a complete no-op. -/
theorem blank_input_noop_witness :
    handleSendMessage "   "
      { success := some true, interview_completed := none, next_question := some "Q2" }
      { sessionId := some "abc123",
        transcript := [{ question := "Q1", answer := none, timestamp := "t1" }],
        isWaitingForAI := false } "t2" =
      ({ sessionId := some "abc123",
         transcript := [{ question := "Q1", answer := none, timestamp := "t1" }],
         isWaitingForAI := false }, none) :=
  blank_input_noop "   "
    { success := some true, interview_completed := none, next_question := some "Q2" }
    { sessionId := some "abc123",
      transcript := [{ question := "Q1", answer := none, timestamp := "t1" }],
      isWaitingForAI := false } "t2" (by decide)

/-- Per-dimension evaluation object in the enhanced payload; only the
numeric rating matters for the claims here, and it may be absent. -/
structure DimensionEvaluation where
  rating : Option ℚ
deriving Repr, DecidableEq

/-- The overall_assessment object of the enhanced evaluation payload;
overall_score may be absent. -/
structure OverallAssessment where
  overall_score : Option ℚ
deriving Repr, DecidableEq

/-- Enhanced evaluation payload shape consumed by displayDashboard
(js/pages/feedback.js): optional overall_assessment object and the
dynamically named dimension evaluations. -/
structure EnhancedEvaluation where
  overall_assessment : Option OverallAssessment
  dimension_evaluations : List (String × DimensionEvaluation)
deriving Repr, DecidableEq

/-- What the score panel shows: either a numeric score (the
updateOverallScore path) or the distinguished score-error state (the
showScoreError path, which renders a question mark and the text Could not
calculate score). -/
inductive ScoreDisplay where
  | shown (score : ℚ)
  | unavailable
deriving Repr, DecidableEq

/-- Score handling of displayDashboard (js/pages/feedback.js lines 256 to
261): updateOverallScore runs only when
data.overall_assessment.overall_score is present (neither the object nor
the field undefined or null); otherwise showScoreError runs. -/
def dashboardScore (data : EnhancedEvaluation) : ScoreDisplay :=
  match data.overall_assessment with
  | some oa =>
    match oa.overall_score with
    | some s => .shown s
    | none => .unavailable
  | none => .unavailable

/-- Score handling of the legacy displayFeedback (legacy feedback module
line 160): updateOverallScore(data.overall_score || 75), where the
JavaScript or-operator replaces a missing, null or zero overall_score by
the literal 75. -/
def legacyFeedbackScore (overall_score : Option ℚ) : ScoreDisplay :=
  match overall_score with
  | some s => if s = 0 then .shown 75 else .shown s
  | none => .shown 75

/-- C6 counterexample: in the legacy flat-score variant a payload with no
overall_score field is displayed as the defaulted numeric score 75, not
as the distinguished unavailable state. -/
theorem legacy_missing_score_defaults :
    legacyFeedbackScore none = .shown 75 ∧
    legacyFeedbackScore none ≠ .unavailable := by
  constructor
  · rfl
  · decide

/-- C6 amended: in the enhanced per-dimension variant, every payload
whose overall_assessment carries no overall_score (or is absent
entirely) yields the distinguished score-error state, never a defaulted
number. -/
theorem enhanced_missing_score_unavailable (data : EnhancedEvaluation)
    (h : ∀ oa, data.overall_assessment = some oa → oa.overall_score = none) :
    dashboardScore data = .unavailable := by
  unfold dashboardScore
  cases hoa : data.overall_assessment with
  | none => rfl
  | some oa => simp [h oa hoa]

/-- C6 amended witness: an enhanced payload with three named dimensions
and no overall_score yields the unavailable marker, not a number. -/
theorem enhanced_missing_score_unavailable_witness :
    dashboardScore
      { overall_assessment := some { overall_score := none },
        dimension_evaluations :=
          [("communication", { rating := some 4 }),
           ("product_sense", { rating := some 3 }),
           ("leadership", { rating := some 5 })] } = .unavailable :=
  enhanced_missing_score_unavailable _ (fun oa h => by cases h; rfl)

/-- Label thresholds of updateOverallScore (js/pages/feedback.js lines
347 to 361), applied on the 0 to 5 scale. -/
def scoreLabel (score : ℚ) : String :=
  if score ≥ 4.5 then "Outstanding Performance"
  else if score ≥ 4.0 then "Exceeds Expectations"
  else if score ≥ 3.5 then "Good Performance"
  else if score ≥ 3.0 then "Meets Expectations"
  else if score ≥ 2.5 then "Below Expectations"
  else "Needs Improvement"

/-- C7: the score label mapping is total and realizes exactly the six
claimed threshold intervals. -/
theorem score_label_thresholds (s : ℚ) :
    (4.5 ≤ s → scoreLabel s = "Outstanding Performance") ∧
    (4 ≤ s ∧ s < 4.5 → scoreLabel s = "Exceeds Expectations") ∧
    (3.5 ≤ s ∧ s < 4 → scoreLabel s = "Good Performance") ∧
    (3 ≤ s ∧ s < 3.5 → scoreLabel s = "Meets Expectations") ∧
    (2.5 ≤ s ∧ s < 3 → scoreLabel s = "Below Expectations") ∧
    (s < 2.5 → scoreLabel s = "Needs Improvement") := by
  unfold scoreLabel
  refine ⟨fun h => ?_, fun h => ?_, fun h => ?_, fun h => ?_, fun h => ?_, fun h => ?_⟩ <;>
    split_ifs <;> first | rfl | (exfalso; norm_num at *; linarith)

/-- C7 witness: each threshold band evaluated at one concrete score. -/
theorem score_label_thresholds_witness :
    scoreLabel 4.7 = "Outstanding Performance" ∧
    scoreLabel 3.2 = "Meets Expectations" ∧
    scoreLabel 1 = "Needs Improvement" :=
  ⟨(score_label_thresholds 4.7).1 (by norm_num),
   (score_label_thresholds 3.2).2.2.2.1 ⟨by norm_num, by norm_num⟩,
   (score_label_thresholds 1).2.2.2.2.2 (by norm_num)⟩

/-- C8 counterexample: on a transcript whose single entry is already
answered (so no entry has answer null), recordAnswer does not fail: it
silently overwrites the recorded answer; and on the empty transcript it
silently returns the empty transcript instead of failing. -/
theorem record_answer_overwrites :
    displayUserMessage "Second answer"
      [{ question := "Q1", answer := some "First answer", timestamp := "t1" }] =
      [{ question := "Q1", answer := some "Second answer", timestamp := "t1" }] ∧
    displayUserMessage "Orphan answer" ([] : List TranscriptEntry) = [] := by
  constructor <;> rfl

/-- C8 amended: recordAnswer (displayUserMessage) never signals failure:
on the empty transcript it is a silent no-op, and on any nonempty
transcript it replaces the last entry by the same entry with its answer
field set to the message, whether or not that entry was pending. -/
theorem record_answer_total (m : String) :
    ∀ (t : List TranscriptEntry) (e : TranscriptEntry), t.getLast? = some e →
      displayUserMessage m t = t.dropLast ++ [{ e with answer := some m }]
  | [], e, h => by simp at h
  | [f], e, h => by
      simp only [List.getLast?_singleton, Option.some.injEq] at h
      subst h
      simp [displayUserMessage]
  | f :: g :: rest, e, h => by
      rw [List.getLast?_cons_cons] at h
      have ih := record_answer_total m (g :: rest) e h
      simp only [displayUserMessage]
      rw [ih]
      simp

/-- C8 amended witness: recording on a concrete two-entry transcript
rewrites exactly the last entry. -/
theorem record_answer_total_witness :
    displayUserMessage "A2"
      [{ question := "Q1", answer := some "A1", timestamp := "t1" },
       { question := "Q2", answer := none, timestamp := "t2" }] =
      [{ question := "Q1", answer := some "A1", timestamp := "t1" },
       { question := "Q2", answer := some "A2", timestamp := "t2" }] := by
  have h := record_answer_total "A2"
    [{ question := "Q1", answer := some "A1", timestamp := "t1" },
     { question := "Q2", answer := none, timestamp := "t2" }]
    { question := "Q2", answer := none, timestamp := "t2" } rfl
  simpa using h

end PrepAI
